import Mathlib

/-!
# k8s-job-notify: completion-edge detection and notification dispatch

A shallow embedding of `pkg/config/config.go` (the notification level) and
`pkg/informer/job.go` (the job informer's update handler) together with the
`Notifier` interface of `pkg/notifier/notifier.go`.

Modelling conventions.

* `batchv1.Job` is reduced to the fields the handler reads: `Namespace`,
  `Name`, `Status.Succeeded` (an `int32`, here an `Int`; the code only compares
  it with zero) and `Status.Conditions`.
* The `interface{}` arguments of `handleJobUpdate` are values of `Obj`: either
  a `*batchv1.Job` or something else, for which the type assertion fails.
* `notifiedJobs map[string]struct{}` is a finite set of strings.  The
  read/write lock around it is not modelled: handler invocations are
  sequential here.
* The notifier is an arbitrary state machine over a state type `σ`; each call
  of `NotifyJobCompleted` returns `none` (Go's `nil`) or `some err`.  The
  context with its ten second deadline is not modelled, a deadline overrun
  being one more way for the call to return an error.
* Every call of `NotifyJobCompleted` and every `slog` record is appended to a
  trace kept in `Env`.
-/

namespace K8sJobNotify

/-! ## pkg/config -/

/-- Go: `type NotificationLevel string`. -/
structure NotificationLevel where
  value : String
  deriving DecidableEq, Repr

/-- Go: `NotificationLevelAll NotificationLevel = "all"`. -/
def NotificationLevelAll : NotificationLevel := ⟨"all"⟩

/-- Go: `NotificationLevelFailed NotificationLevel = "failed"`. -/
def NotificationLevelFailed : NotificationLevel := ⟨"failed"⟩

/-- Go: `func (l NotificationLevel) ShouldNotifySuccess() bool`. -/
def NotificationLevel.ShouldNotifySuccess (l : NotificationLevel) : Bool :=
  decide (l = NotificationLevelAll)

/-- Go: `func (l NotificationLevel) ShouldNotifyFailure() bool`; always true. -/
def NotificationLevel.ShouldNotifyFailure (_l : NotificationLevel) : Bool :=
  true

/-- Go: `parseNotificationLevel`; the empty string defaults to `all`. -/
def parseNotificationLevel (value : String) : Except String NotificationLevel :=
  if value = "" then
    .ok NotificationLevelAll
  else if (⟨value⟩ : NotificationLevel) = NotificationLevelAll
      ∨ (⟨value⟩ : NotificationLevel) = NotificationLevelFailed then
    .ok ⟨value⟩
  else
    .error ("NOTIFICATION_LEVEL must be 'all' or 'failed', got: " ++ value)

/-! ## The parts of `batchv1.Job` used by the informer -/

/-- Go: `batchv1.JobCondition`, fields `Type` (here `Type_`) and `Status`. -/
structure JobCondition where
  Type_ : String
  Status : String
  deriving DecidableEq, Repr

/-- Go: `batchv1.JobFailed JobConditionType = "Failed"`. -/
def JobFailed : String := "Failed"

/-- Go: `batchv1.JobStatus`, fields `Succeeded` and `Conditions`. -/
structure JobStatus where
  Succeeded : Int
  Conditions : List JobCondition
  deriving DecidableEq, Repr

/-- Go: `batchv1.Job`, with the metadata fields `Namespace` and `Name`. -/
structure Job where
  Namespace : String
  Name : String
  Status : JobStatus
  deriving DecidableEq, Repr

/-- An `interface{}` value handed to the update handler. -/
inductive Obj where
  | job (j : Job)
  | other
  deriving DecidableEq, Repr

/-! ## pkg/notifier -/

/-- Go: `type Notifier interface { NotifyJobCompleted(ctx, job, succeeded) error }`.
The implementation is a state machine on `σ`; `none` is a `nil` error. -/
structure Notifier (σ : Type) where
  NotifyJobCompleted : σ → Job → Bool → Option String × σ

/-- One recorded invocation of `NotifyJobCompleted`. -/
structure NotifyCall where
  job : Job
  succeeded : Bool
  deriving DecidableEq, Repr

/-- Severity of a `slog` record. -/
inductive LogLevel where
  | info
  | error
  deriving DecidableEq, Repr

/-- One `slog` record written by the handler. -/
structure LogRecord where
  level : LogLevel
  msg : String
  job : String
  ns : String
  err : Option String
  deriving DecidableEq, Repr

/-- Everything outside the informer that the handler touches: the notifier's
own state, the trace of notifier calls and the log. -/
structure Env (σ : Type) where
  notifierState : σ
  calls : List NotifyCall
  logs : List LogRecord

/-! ## pkg/informer -/

/-- Go: `type JobInformer struct`.  The clientset is not modelled. -/
structure JobInformer (σ : Type) where
  notifier : Notifier σ
  resyncPeriod : Int
  namespace_ : String
  notificationLevel : NotificationLevel
  notifiedJobs : Finset String

/-- Go: `NewJobInformer`; the dedup set starts empty. -/
def NewJobInformer {σ : Type} (notifier : Notifier σ) (namespace_ : String)
    (resyncPeriod : Int) (notificationLevel : NotificationLevel) : JobInformer σ :=
  { notifier := notifier
    namespace_ := namespace_
    resyncPeriod := resyncPeriod
    notificationLevel := notificationLevel
    notifiedJobs := ∅ }

/-- Go: `jobKeyFunc`. -/
def jobKeyFunc (job : Job) : String :=
  job.Namespace ++ "/" ++ job.Name

/-- Go: `isJobConditionFailed`; the loop returns at the first match. -/
def isJobConditionFailed (job : Job) : Bool :=
  go job.Status.Conditions
where
  go : List JobCondition → Bool
    | [] => false
    | condition :: rest =>
      if condition.Type_ = JobFailed ∧ condition.Status = "True" then true else go rest

/-- Go: `(*JobInformer).isJobSucceeded`. -/
def JobInformer.isJobSucceeded {σ : Type} (_j : JobInformer σ) (oldJob newJob : Job) : Bool :=
  if oldJob.Status.Succeeded > 0 then false
  else decide (newJob.Status.Succeeded > 0)

/-- Go: `(*JobInformer).isJobFailed`. -/
def JobInformer.isJobFailed {σ : Type} (_j : JobInformer σ) (oldJob newJob : Job) : Bool :=
  if isJobConditionFailed oldJob then false
  else isJobConditionFailed newJob

/-- Go: `(*JobInformer).isAlreadyNotified`. -/
def JobInformer.isAlreadyNotified {σ : Type} (j : JobInformer σ) (key : String) : Bool :=
  decide (key ∈ j.notifiedJobs)

/-- Go: `(*JobInformer).markAsNotified`. -/
def JobInformer.markAsNotified {σ : Type} (j : JobInformer σ) (key : String) : JobInformer σ :=
  { j with notifiedJobs := insert key j.notifiedJobs }

/-- Go: `(*JobInformer).namespaceLogValue`. -/
def JobInformer.namespaceLogValue {σ : Type} (j : JobInformer σ) : String :=
  if j.namespace_ = "" then "all" else j.namespace_

/-- Append a `slog.Info` record. -/
def Env.logInfo {σ : Type} (e : Env σ) (msg : String) (job : Job) : Env σ :=
  { e with logs := e.logs ++ [⟨.info, msg, job.Name, job.Namespace, none⟩] }

/-- Append a `slog.Error` record. -/
def Env.logError {σ : Type} (e : Env σ) (msg : String) (job : Job) (err : String) : Env σ :=
  { e with logs := e.logs ++ [⟨.error, msg, job.Name, job.Namespace, some err⟩] }

/-- Invoke `j.notifier.NotifyJobCompleted(ctx, job, succeeded)`: the call is
recorded, the notifier's state advances, and the returned error is handed
back to the caller. -/
def JobInformer.callNotifier {σ : Type} (j : JobInformer σ) (e : Env σ) (job : Job)
    (succeeded : Bool) : Option String × Env σ :=
  let r := j.notifier.NotifyJobCompleted e.notifierState job succeeded
  (r.1, { e with notifierState := r.2, calls := e.calls ++ [⟨job, succeeded⟩] })

/-- Go: `(*JobInformer).handleJobUpdate`. -/
def JobInformer.handleJobUpdate {σ : Type} (j : JobInformer σ) (e : Env σ)
    (oldObj newObj : Obj) : JobInformer σ × Env σ :=
  match oldObj with
  | .other => (j, e)
  | .job oldJob =>
    match newObj with
    | .other => (j, e)
    | .job newJob =>
      let jobKey := jobKeyFunc newJob
      if j.isAlreadyNotified jobKey then (j, e)
      else
        let succeeded := j.isJobSucceeded oldJob newJob
        let failed := j.isJobFailed oldJob newJob
        if !succeeded && !failed then (j, e)
        else
          let j := j.markAsNotified jobKey
          if succeeded && j.notificationLevel.ShouldNotifySuccess then
            let e := e.logInfo "job succeeded, sending notification" newJob
            match j.callNotifier e newJob true with
            | (some err, e) => (j, e.logError "failed to send success notification" newJob err)
            | (none, e) => (j, e)
          else if failed && j.notificationLevel.ShouldNotifyFailure then
            let e := e.logInfo "job failed, sending notification" newJob
            match j.callNotifier e newJob false with
            | (some err, e) => (j, e.logError "failed to send failure notification" newJob err)
            | (none, e) => (j, e)
          else (j, e)

/-- The informer's event handler applied to a finite sequence of update
events, in order. -/
def JobInformer.run {σ : Type} (j : JobInformer σ) (e : Env σ) :
    List (Obj × Obj) → JobInformer σ × Env σ
  | [] => (j, e)
  | (oldObj, newObj) :: rest =>
    let r := j.handleJobUpdate e oldObj newObj
    r.1.run r.2 rest

/-- The number of recorded notifier calls made for jobs with the given key. -/
def callsForKey (calls : List NotifyCall) (key : String) : Nat :=
  (calls.filter (fun c => decide (jobKeyFunc c.job = key))).length

/-- The dedup invariant: no key has more than one recorded notifier call, and
every key with a recorded call is in the dedup set. -/
def DedupInv {σ : Type} (j : JobInformer σ) (e : Env σ) : Prop :=
  ∀ key, callsForKey e.calls key ≤ 1 ∧ (0 < callsForKey e.calls key → key ∈ j.notifiedJobs)

/-! ## Sample data -/

/-- A notifier without state whose every call succeeds. -/
def okNotifier : Notifier Unit := ⟨fun s _ _ => (none, s)⟩

/-- A notifier without state whose every call fails. -/
def errNotifier : Notifier Unit := ⟨fun s _ _ => (some "slack returned non-OK status: 500", s)⟩

/-- An environment with an empty trace and an empty log. -/
def emptyEnv : Env Unit := ⟨(), [], []⟩

/-- A job `default/backup` with the given succeeded count and conditions. -/
def sampleJob (succeeded : Int) (conditions : List JobCondition) : Job :=
  ⟨"default", "backup", ⟨succeeded, conditions⟩⟩

/-- The condition `Failed=True`. -/
def failedTrue : JobCondition := ⟨"Failed", "True"⟩

/-- A job with namespace `a/b` and name `c`. -/
def slashJobA : Job := ⟨"a/b", "c", ⟨0, []⟩⟩

/-- A job with namespace `a` and name `b/c`. -/
def slashJobB : Job := ⟨"a", "b/c", ⟨0, []⟩⟩

/-- A freshly constructed informer over `okNotifier`, watching all namespaces
with a thirty second resync period. -/
def sampleInformer (level : NotificationLevel) : JobInformer Unit :=
  NewJobInformer okNotifier "" 30 level

/-- The property "the job carries a condition with `Type=Failed` and
`Status="True"`", stated on the condition list. -/
def HasFailedCondition (job : Job) : Prop :=
  ∃ c ∈ job.Status.Conditions, c.Type_ = JobFailed ∧ c.Status = "True"

/-! ## The classifiers -/

theorem append_cons_inj {α : Type} (a : α) :
    ∀ (l₁ l₂ r₁ r₂ : List α), a ∉ l₁ → a ∉ l₂ → l₁ ++ a :: r₁ = l₂ ++ a :: r₂ →
      l₁ = l₂ ∧ r₁ = r₂
  | [], [], _, _, _, _, h => ⟨rfl, by simpa using h⟩
  | [], b :: l₂, _, _, _, h₂, h => by
    simp only [List.nil_append, List.cons_append, List.cons.injEq] at h
    exact absurd (h.1 ▸ List.mem_cons_self _ _) h₂
  | b :: l₁, [], _, _, h₁, _, h => by
    simp only [List.nil_append, List.cons_append, List.cons.injEq] at h
    exact absurd (h.1 ▸ List.mem_cons_self _ _) h₁
  | b :: l₁, c :: l₂, r₁, r₂, h₁, h₂, h => by
    simp only [List.cons_append, List.cons.injEq] at h
    have ih := append_cons_inj a l₁ l₂ r₁ r₂ (fun hm => h₁ (List.mem_cons_of_mem _ hm))
      (fun hm => h₂ (List.mem_cons_of_mem _ hm)) h.2
    exact ⟨by rw [h.1, ih.1], ih.2⟩

theorem isJobConditionFailed_go_iff (cs : List JobCondition) :
    isJobConditionFailed.go cs = true ↔ ∃ c ∈ cs, c.Type_ = JobFailed ∧ c.Status = "True" := by
  induction cs with
  | nil => simp [isJobConditionFailed.go]
  | cons c rest ih =>
    unfold isJobConditionFailed.go
    by_cases hc : c.Type_ = JobFailed ∧ c.Status = "True"
    · simp [hc]
    · simp only [hc, if_false, ih, List.mem_cons, exists_eq_or_imp, false_or]

theorem isJobConditionFailed_iff (job : Job) :
    isJobConditionFailed job = true ↔ HasFailedCondition job :=
  isJobConditionFailed_go_iff job.Status.Conditions

theorem isJobConditionFailed_eq_false_iff (job : Job) :
    isJobConditionFailed job = false ↔ ¬ HasFailedCondition job := by
  rw [← isJobConditionFailed_iff]; simp

theorem isJobSucceeded_iff {σ : Type} (j : JobInformer σ) (oldJob newJob : Job) :
    j.isJobSucceeded oldJob newJob = true ↔
      ¬ 0 < oldJob.Status.Succeeded ∧ 0 < newJob.Status.Succeeded := by
  unfold JobInformer.isJobSucceeded
  by_cases h : oldJob.Status.Succeeded > 0 <;> simp [h]

theorem isJobFailed_iff {σ : Type} (j : JobInformer σ) (oldJob newJob : Job) :
    j.isJobFailed oldJob newJob = true ↔
      ¬ HasFailedCondition oldJob ∧ HasFailedCondition newJob := by
  unfold JobInformer.isJobFailed
  rw [← isJobConditionFailed_iff, ← isJobConditionFailed_iff]
  cases isJobConditionFailed oldJob <;> simp

/-! ## Shape of one handler step -/

section Step

variable {σ : Type}

/-- The notifier calls recorded after one handler step on a pair of jobs. -/
theorem handleJobUpdate_calls (j : JobInformer σ) (e : Env σ) (oldJob newJob : Job) :
    (j.handleJobUpdate e (.job oldJob) (.job newJob)).2.calls =
      if jobKeyFunc newJob ∈ j.notifiedJobs then e.calls
      else if j.isJobSucceeded oldJob newJob = true ∧ j.notificationLevel = NotificationLevelAll
        then e.calls ++ [⟨newJob, true⟩]
      else if j.isJobFailed oldJob newJob = true then e.calls ++ [⟨newJob, false⟩]
      else e.calls := by
  unfold JobInformer.handleJobUpdate
  simp only [JobInformer.isAlreadyNotified, NotificationLevel.ShouldNotifySuccess,
    NotificationLevel.ShouldNotifyFailure, JobInformer.markAsNotified]
  by_cases hk : jobKeyFunc newJob ∈ j.notifiedJobs
  · simp [hk]
  · cases hs : j.isJobSucceeded oldJob newJob <;> cases hf : j.isJobFailed oldJob newJob <;>
      by_cases hl : j.notificationLevel = NotificationLevelAll <;>
      simp [hk, hs, hf, hl] <;>
      split <;> rename_i h <;> have h2 := congrArg (fun r => r.2.calls) h <;>
      simp [JobInformer.callNotifier, Env.logInfo, Env.logError] at h2 ⊢ <;>
      simp [← h2]

/-- The dedup set after one handler step on a pair of jobs. -/
theorem handleJobUpdate_notifiedJobs (j : JobInformer σ) (e : Env σ) (oldJob newJob : Job) :
    (j.handleJobUpdate e (.job oldJob) (.job newJob)).1.notifiedJobs =
      if jobKeyFunc newJob ∈ j.notifiedJobs then j.notifiedJobs
      else if j.isJobSucceeded oldJob newJob = true ∨ j.isJobFailed oldJob newJob = true
        then insert (jobKeyFunc newJob) j.notifiedJobs
      else j.notifiedJobs := by
  unfold JobInformer.handleJobUpdate
  simp only [JobInformer.isAlreadyNotified, NotificationLevel.ShouldNotifySuccess,
    NotificationLevel.ShouldNotifyFailure, JobInformer.markAsNotified]
  by_cases hk : jobKeyFunc newJob ∈ j.notifiedJobs
  · simp [hk]
  · cases hs : j.isJobSucceeded oldJob newJob <;> cases hf : j.isJobFailed oldJob newJob <;>
      by_cases hl : j.notificationLevel = NotificationLevelAll <;>
      simp [hk, hs, hf, hl] <;>
      split <;> rfl

/-- A handler step never changes the notification level. -/
theorem handleJobUpdate_notificationLevel (j : JobInformer σ) (e : Env σ) (oldObj newObj : Obj) :
    (j.handleJobUpdate e oldObj newObj).1.notificationLevel = j.notificationLevel := by
  unfold JobInformer.handleJobUpdate
  simp only [JobInformer.markAsNotified]
  repeat' split
  all_goals rfl

/-- A handler step on an object that is not a job changes nothing. -/
theorem handleJobUpdate_not_job (j : JobInformer σ) (e : Env σ) (oldObj newObj : Obj)
    (h : oldObj = .other ∨ newObj = .other) : j.handleJobUpdate e oldObj newObj = (j, e) := by
  unfold JobInformer.handleJobUpdate
  rcases h with h | h
  · subst h; rfl
  · subst h; cases oldObj <;> rfl

/-- A handler step on an identity that is already marked changes nothing. -/
theorem handleJobUpdate_marked (j : JobInformer σ) (e : Env σ) (oldJob newJob : Job)
    (h : jobKeyFunc newJob ∈ j.notifiedJobs) :
    j.handleJobUpdate e (.job oldJob) (.job newJob) = (j, e) := by
  unfold JobInformer.handleJobUpdate
  simp [JobInformer.isAlreadyNotified, h]

/-- A handler step on a pair without an edge changes nothing. -/
theorem handleJobUpdate_no_edge (j : JobInformer σ) (e : Env σ) (oldJob newJob : Job)
    (hs : j.isJobSucceeded oldJob newJob = false) (hf : j.isJobFailed oldJob newJob = false) :
    j.handleJobUpdate e (.job oldJob) (.job newJob) = (j, e) := by
  unfold JobInformer.handleJobUpdate
  simp [hs, hf]

/-- A handler step never removes a key from the dedup set. -/
theorem handleJobUpdate_notifiedJobs_mono (j : JobInformer σ) (e : Env σ) (oldObj newObj : Obj) :
    j.notifiedJobs ⊆ (j.handleJobUpdate e oldObj newObj).1.notifiedJobs := by
  cases oldObj with
  | other => rw [handleJobUpdate_not_job j e _ _ (Or.inl rfl)]
  | job oldJob =>
    cases newObj with
    | other => rw [handleJobUpdate_not_job j e _ _ (Or.inr rfl)]
    | job newJob =>
      rw [handleJobUpdate_notifiedJobs]
      split_ifs
      · exact Finset.Subset.refl _
      · exact Finset.subset_insert _ _
      · exact Finset.Subset.refl _

/-- Running the handler over a sequence of events never removes a key from the
dedup set. -/
theorem run_notifiedJobs_mono (events : List (Obj × Obj)) (j : JobInformer σ) (e : Env σ) :
    j.notifiedJobs ⊆ (j.run e events).1.notifiedJobs := by
  induction events generalizing j e with
  | nil => exact Finset.Subset.refl _
  | cons ev rest ih =>
    obtain ⟨oldObj, newObj⟩ := ev
    unfold JobInformer.run
    exact (handleJobUpdate_notifiedJobs_mono j e oldObj newObj).trans (ih _ _)

theorem callsForKey_append_singleton (calls : List NotifyCall) (c : NotifyCall) (key : String) :
    callsForKey (calls ++ [c]) key =
      callsForKey calls key + if jobKeyFunc c.job = key then 1 else 0 := by
  unfold callsForKey
  rw [List.filter_append, List.length_append]
  by_cases h : jobKeyFunc c.job = key <;> simp [List.filter, h]

theorem DedupInv_handleJobUpdate (j : JobInformer σ) (e : Env σ) (oldObj newObj : Obj)
    (h : DedupInv j e) :
    DedupInv (j.handleJobUpdate e oldObj newObj).1 (j.handleJobUpdate e oldObj newObj).2 := by
  cases oldObj with
  | other => rw [handleJobUpdate_not_job j e _ _ (Or.inl rfl)]; exact h
  | job oldJob =>
    cases newObj with
    | other => rw [handleJobUpdate_not_job j e _ _ (Or.inr rfl)]; exact h
    | job newJob =>
      by_cases hk : jobKeyFunc newJob ∈ j.notifiedJobs
      · rw [handleJobUpdate_marked j e oldJob newJob hk]; exact h
      · have hzero : callsForKey e.calls (jobKeyFunc newJob) = 0 := by
          by_contra hne
          exact hk ((h _).2 (Nat.pos_of_ne_zero hne))
        have hsub := handleJobUpdate_notifiedJobs_mono j e (.job oldJob) (.job newJob)
        have hstep : ∀ b : Bool,
            (j.handleJobUpdate e (.job oldJob) (.job newJob)).2.calls = e.calls ++ [⟨newJob, b⟩] →
            j.isJobSucceeded oldJob newJob = true ∨ j.isJobFailed oldJob newJob = true →
            DedupInv (j.handleJobUpdate e (.job oldJob) (.job newJob)).1
              (j.handleJobUpdate e (.job oldJob) (.job newJob)).2 := by
          intro b hc hedge key
          rw [hc, callsForKey_append_singleton, handleJobUpdate_notifiedJobs]
          simp only [hk, hedge, if_true, if_false]
          by_cases hkey : jobKeyFunc newJob = key
          · subst hkey
            simp [hzero]
          · simp only [hkey, if_false, Nat.add_zero]
            exact ⟨(h key).1, fun hp => Finset.mem_insert_of_mem ((h key).2 hp)⟩
        have hsame : (j.handleJobUpdate e (.job oldJob) (.job newJob)).2.calls = e.calls →
            DedupInv (j.handleJobUpdate e (.job oldJob) (.job newJob)).1
              (j.handleJobUpdate e (.job oldJob) (.job newJob)).2 := by
          intro hc key
          rw [hc]
          exact ⟨(h key).1, fun hp => hsub ((h key).2 hp)⟩
        have hcalls := handleJobUpdate_calls j e oldJob newJob
        simp only [hk, if_false] at hcalls
        split_ifs at hcalls with h1 h2
        · exact hstep true hcalls (Or.inl h1.1)
        · exact hstep false hcalls (Or.inr h2)
        · exact hsame hcalls

theorem DedupInv_run (events : List (Obj × Obj)) (j : JobInformer σ) (e : Env σ)
    (h : DedupInv j e) : DedupInv (j.run e events).1 (j.run e events).2 := by
  induction events generalizing j e with
  | nil => exact h
  | cons ev rest ih =>
    obtain ⟨oldObj, newObj⟩ := ev
    unfold JobInformer.run
    exact ih _ _ (DedupInv_handleJobUpdate j e oldObj newObj h)

end Step

/-! ## The success-edge classifier -/

/-- C3: for a pair of jobs with non-negative `Status.Succeeded` counts,
`isJobSucceeded` is true exactly when the old count is zero and the new count
is positive; it is false when the counts are equal and false when the count
decreases. -/
theorem isJobSucceeded_spec {σ : Type} (j : JobInformer σ) (oldJob newJob : Job)
    (hold : 0 ≤ oldJob.Status.Succeeded) (hnew : 0 ≤ newJob.Status.Succeeded) :
    (j.isJobSucceeded oldJob newJob = true ↔
        oldJob.Status.Succeeded = 0 ∧ 0 < newJob.Status.Succeeded) ∧
      (oldJob.Status.Succeeded = newJob.Status.Succeeded →
        j.isJobSucceeded oldJob newJob = false) ∧
      (newJob.Status.Succeeded < oldJob.Status.Succeeded →
        j.isJobSucceeded oldJob newJob = false) := by
  refine ⟨?_, ?_, ?_⟩
  · rw [isJobSucceeded_iff]
    constructor
    · rintro ⟨h1, h2⟩; exact ⟨by omega, h2⟩
    · rintro ⟨h1, h2⟩; exact ⟨by omega, h2⟩
  · intro h
    rw [← Bool.not_eq_true, isJobSucceeded_iff]
    omega
  · intro h
    rw [← Bool.not_eq_true, isJobSucceeded_iff]
    omega

theorem isJobSucceeded_spec_witness :
    (0 ≤ (sampleJob 0 []).Status.Succeeded ∧ 0 ≤ (sampleJob 1 []).Status.Succeeded) ∧
      ((sampleInformer NotificationLevelAll).isJobSucceeded (sampleJob 0 []) (sampleJob 1 [])
          = true ↔
        (sampleJob 0 []).Status.Succeeded = 0 ∧ 0 < (sampleJob 1 []).Status.Succeeded) ∧
      ((sampleJob 0 []).Status.Succeeded = (sampleJob 1 []).Status.Succeeded →
        (sampleInformer NotificationLevelAll).isJobSucceeded (sampleJob 0 []) (sampleJob 1 [])
          = false) ∧
      ((sampleJob 1 []).Status.Succeeded < (sampleJob 0 []).Status.Succeeded →
        (sampleInformer NotificationLevelAll).isJobSucceeded (sampleJob 0 []) (sampleJob 1 [])
          = false) :=
  ⟨⟨by decide, by decide⟩,
    isJobSucceeded_spec (sampleInformer NotificationLevelAll) (sampleJob 0 []) (sampleJob 1 [])
      (by decide) (by decide)⟩

/-! ## One handler step -/

/-- C6: when the new job's key is already in `notifiedJobs`, `handleJobUpdate`
makes no notifier call and leaves `notifiedJobs` unchanged, whatever the pair
and the notification level. -/
theorem handleJobUpdate_already_notified {σ : Type} (j : JobInformer σ) (e : Env σ)
    (oldJob newJob : Job) (hk : jobKeyFunc newJob ∈ j.notifiedJobs) :
    (j.handleJobUpdate e (.job oldJob) (.job newJob)).2.calls = e.calls ∧
      (j.handleJobUpdate e (.job oldJob) (.job newJob)).1.notifiedJobs = j.notifiedJobs := by
  rw [handleJobUpdate_marked j e oldJob newJob hk]
  exact ⟨rfl, rfl⟩

theorem handleJobUpdate_already_notified_witness :
    jobKeyFunc (sampleJob 1 []) ∈
        ((sampleInformer NotificationLevelAll).markAsNotified
          (jobKeyFunc (sampleJob 1 []))).notifiedJobs ∧
      ((((sampleInformer NotificationLevelAll).markAsNotified
            (jobKeyFunc (sampleJob 1 []))).handleJobUpdate emptyEnv
          (.job (sampleJob 0 [])) (.job (sampleJob 1 []))).2.calls = emptyEnv.calls ∧
        (((sampleInformer NotificationLevelAll).markAsNotified
            (jobKeyFunc (sampleJob 1 []))).handleJobUpdate emptyEnv
          (.job (sampleJob 0 [])) (.job (sampleJob 1 []))).1.notifiedJobs =
          ((sampleInformer NotificationLevelAll).markAsNotified
            (jobKeyFunc (sampleJob 1 []))).notifiedJobs) :=
  ⟨Finset.mem_insert_self _ _,
    handleJobUpdate_already_notified _ emptyEnv (sampleJob 0 []) (sampleJob 1 [])
      (Finset.mem_insert_self _ _)⟩

/-- C7: on a pair where neither the success condition nor the failure
condition holds (both classifiers false or, for a non-negative old count,
"old count zero and new count positive" false and "old without, new with a
`Failed=True` condition" false), in particular on a pair with both succeeded
counts zero and equal Failed-condition status, and on a resync pair with old
equal to new, `handleJobUpdate` makes no notifier call and leaves
`notifiedJobs` unchanged, for every store content and notification level. -/
theorem handleJobUpdate_no_edge_no_effect {σ : Type} (j : JobInformer σ) (e : Env σ)
    (oldJob newJob : Job)
    (h : (j.isJobSucceeded oldJob newJob = false ∧ j.isJobFailed oldJob newJob = false) ∨
      (0 ≤ oldJob.Status.Succeeded ∧
        ¬ (oldJob.Status.Succeeded = 0 ∧ 0 < newJob.Status.Succeeded) ∧
        ¬ (¬ HasFailedCondition oldJob ∧ HasFailedCondition newJob)) ∨
      (oldJob.Status.Succeeded = 0 ∧ newJob.Status.Succeeded = 0 ∧
        isJobConditionFailed oldJob = isJobConditionFailed newJob) ∨
      oldJob = newJob) :
    (j.handleJobUpdate e (.job oldJob) (.job newJob)).2.calls = e.calls ∧
      (j.handleJobUpdate e (.job oldJob) (.job newJob)).1.notifiedJobs = j.notifiedJobs := by
  have key : j.isJobSucceeded oldJob newJob = false ∧ j.isJobFailed oldJob newJob = false := by
    rcases h with h | ⟨hnn, hns, hnf⟩ | ⟨h0, h1, hc⟩ | rfl
    · exact h
    · constructor
      · rw [← Bool.not_eq_true, isJobSucceeded_iff]
        omega
      · rw [← Bool.not_eq_true, isJobFailed_iff]
        exact hnf
    · constructor
      · simp [JobInformer.isJobSucceeded, h0, h1]
      · unfold JobInformer.isJobFailed
        rw [hc]
        cases isJobConditionFailed newJob <;> rfl
    · constructor
      · unfold JobInformer.isJobSucceeded
        by_cases hp : oldJob.Status.Succeeded > 0 <;> simp [hp]
      · unfold JobInformer.isJobFailed
        cases isJobConditionFailed oldJob <;> rfl
  rw [handleJobUpdate_no_edge j e oldJob newJob key.1 key.2]
  exact ⟨rfl, rfl⟩

theorem handleJobUpdate_no_edge_no_effect_witness :
    ((sampleInformer NotificationLevelAll).handleJobUpdate emptyEnv
        (.job (sampleJob 1 [])) (.job (sampleJob 1 []))).2.calls = emptyEnv.calls ∧
      ((sampleInformer NotificationLevelAll).handleJobUpdate emptyEnv
        (.job (sampleJob 1 [])) (.job (sampleJob 1 []))).1.notifiedJobs =
        (sampleInformer NotificationLevelAll).notifiedJobs :=
  handleJobUpdate_no_edge_no_effect (sampleInformer NotificationLevelAll) emptyEnv
    (sampleJob 1 []) (sampleJob 1 []) (Or.inr (Or.inr (Or.inr rfl)))

/-- C4: when the old job carries no `Failed=True` condition, the new job
carries one, the success condition does not hold and the job's key is not yet
in `notifiedJobs`, then `handleJobUpdate` makes exactly one notifier call,
`NotifyJobCompleted(newJob, false)`, for every value of the notification
level.  The success condition failing is either `isJobSucceeded` being false
or, for a non-negative old count, "old count zero and new count positive"
being false. -/
theorem handleJobUpdate_failure_always_notified {σ : Type} (j : JobInformer σ) (e : Env σ)
    (oldJob newJob : Job)
    (hold : ¬ HasFailedCondition oldJob) (hnew : HasFailedCondition newJob)
    (hs : j.isJobSucceeded oldJob newJob = false ∨
      (0 ≤ oldJob.Status.Succeeded ∧
        ¬ (oldJob.Status.Succeeded = 0 ∧ 0 < newJob.Status.Succeeded)))
    (hk : jobKeyFunc newJob ∉ j.notifiedJobs) :
    (j.handleJobUpdate e (.job oldJob) (.job newJob)).2.calls =
      e.calls ++ [⟨newJob, false⟩] := by
  have hs' : j.isJobSucceeded oldJob newJob = false := by
    rcases hs with hs | ⟨h0, hs⟩
    · exact hs
    · rw [← Bool.not_eq_true, isJobSucceeded_iff]
      omega
  have hf : j.isJobFailed oldJob newJob = true := (isJobFailed_iff j oldJob newJob).2 ⟨hold, hnew⟩
  rw [handleJobUpdate_calls]
  simp [hk, hs', hf]

theorem handleJobUpdate_failure_always_notified_witness :
    (¬ HasFailedCondition (sampleJob 0 []) ∧ HasFailedCondition (sampleJob 0 [failedTrue]) ∧
        ((sampleInformer NotificationLevelFailed).isJobSucceeded (sampleJob 0 [])
            (sampleJob 0 [failedTrue]) = false ∨
          (0 ≤ (sampleJob 0 []).Status.Succeeded ∧
            ¬ ((sampleJob 0 []).Status.Succeeded = 0 ∧
              0 < (sampleJob 0 [failedTrue]).Status.Succeeded))) ∧
        jobKeyFunc (sampleJob 0 [failedTrue]) ∉
          (sampleInformer NotificationLevelFailed).notifiedJobs) ∧
      ((sampleInformer NotificationLevelFailed).handleJobUpdate emptyEnv
          (.job (sampleJob 0 [])) (.job (sampleJob 0 [failedTrue]))).2.calls =
        emptyEnv.calls ++ [⟨sampleJob 0 [failedTrue], false⟩] :=
  ⟨⟨by simp [HasFailedCondition, sampleJob], ⟨failedTrue, by simp [sampleJob], rfl, rfl⟩,
      Or.inr (by decide), Finset.not_mem_empty _⟩,
    handleJobUpdate_failure_always_notified (sampleInformer NotificationLevelFailed) emptyEnv
      (sampleJob 0 []) (sampleJob 0 [failedTrue])
      (by simp [HasFailedCondition, sampleJob]) ⟨failedTrue, by simp [sampleJob], rfl, rfl⟩
      (Or.inr (by decide)) (Finset.not_mem_empty _)⟩

/-- C5: on a pair with a success edge (old succeeded count zero, new count
positive) and no failure edge, for a key not yet in `notifiedJobs`,
`handleJobUpdate` makes exactly one notifier call
`NotifyJobCompleted(newJob, true)` under level `all` and no notifier call
under level `failed`. -/
theorem handleJobUpdate_success_policy_gate {σ : Type} (j : JobInformer σ) (e : Env σ)
    (oldJob newJob : Job)
    (hold : oldJob.Status.Succeeded = 0) (hnew : 0 < newJob.Status.Succeeded)
    (hf : ¬ (¬ HasFailedCondition oldJob ∧ HasFailedCondition newJob))
    (hk : jobKeyFunc newJob ∉ j.notifiedJobs) :
    (({ j with notificationLevel := NotificationLevelAll }).handleJobUpdate e
          (.job oldJob) (.job newJob)).2.calls = e.calls ++ [⟨newJob, true⟩] ∧
      (({ j with notificationLevel := NotificationLevelFailed }).handleJobUpdate e
          (.job oldJob) (.job newJob)).2.calls = e.calls := by
  have hs : ∀ j' : JobInformer σ, j'.isJobSucceeded oldJob newJob = true := fun j' =>
    (isJobSucceeded_iff j' oldJob newJob).2 ⟨by omega, hnew⟩
  have hf' : ∀ j' : JobInformer σ, j'.isJobFailed oldJob newJob = false := fun j' => by
    rw [← Bool.not_eq_true, isJobFailed_iff]; exact hf
  constructor
  · rw [handleJobUpdate_calls]
    simp [hk, hs]
  · rw [handleJobUpdate_calls]
    have hne : NotificationLevelFailed ≠ NotificationLevelAll := by decide
    simp [hk, hs, hf', hne]

theorem handleJobUpdate_success_policy_gate_witness :
    ((sampleJob 0 []).Status.Succeeded = 0 ∧ 0 < (sampleJob 1 []).Status.Succeeded ∧
        ¬ (¬ HasFailedCondition (sampleJob 0 []) ∧ HasFailedCondition (sampleJob 1 [])) ∧
        jobKeyFunc (sampleJob 1 []) ∉ (sampleInformer NotificationLevelAll).notifiedJobs) ∧
      (({ sampleInformer NotificationLevelAll with
            notificationLevel := NotificationLevelAll }).handleJobUpdate emptyEnv
          (.job (sampleJob 0 [])) (.job (sampleJob 1 []))).2.calls =
        emptyEnv.calls ++ [⟨sampleJob 1 [], true⟩] ∧
      (({ sampleInformer NotificationLevelAll with
            notificationLevel := NotificationLevelFailed }).handleJobUpdate emptyEnv
          (.job (sampleJob 0 [])) (.job (sampleJob 1 []))).2.calls = emptyEnv.calls :=
  ⟨⟨rfl, by decide, by simp [HasFailedCondition, sampleJob], Finset.not_mem_empty _⟩,
    handleJobUpdate_success_policy_gate (sampleInformer NotificationLevelAll) emptyEnv
      (sampleJob 0 []) (sampleJob 1 []) rfl (by decide)
      (by simp [HasFailedCondition, sampleJob]) (Finset.not_mem_empty _)⟩

/-- C2, as stated, fails: under level `failed`, on a pair where the succeeded
count goes from 0 to 1 and a `Failed=True` condition appears, the handler
calls `NotifyJobCompleted(newJob, false)`. -/
theorem handleJobUpdate_both_edges_failed_level_counterexample :
    (sampleJob 0 []).Status.Succeeded = 0 ∧
      0 < (sampleJob 1 [failedTrue]).Status.Succeeded ∧
      isJobConditionFailed (sampleJob 0 []) = false ∧
      isJobConditionFailed (sampleJob 1 [failedTrue]) = true ∧
      ((sampleInformer NotificationLevelFailed).handleJobUpdate emptyEnv
          (.job (sampleJob 0 [])) (.job (sampleJob 1 [failedTrue]))).2.calls =
        [⟨sampleJob 1 [failedTrue], false⟩] := by
  refine ⟨rfl, by decide, by decide, by decide, ?_⟩
  decide

/-- C2, amended: on a pair carrying both a success edge and a failure edge,
under level `all` the handler makes no call with `succeeded = false` (for a key
not yet notified it makes the single call `NotifyJobCompleted(newJob, true)`,
for a notified key none); under level `failed` the success branch is closed by
the policy and the failure branch is taken: for a key not yet notified the
handler makes the single call `NotifyJobCompleted(newJob, false)`. -/
theorem handleJobUpdate_both_edges {σ : Type} (j : JobInformer σ) (e : Env σ)
    (oldJob newJob : Job)
    (hold : oldJob.Status.Succeeded = 0) (hnew : 0 < newJob.Status.Succeeded)
    (hfold : ¬ HasFailedCondition oldJob) (hfnew : HasFailedCondition newJob) :
    (({ j with notificationLevel := NotificationLevelAll }).handleJobUpdate e
          (.job oldJob) (.job newJob)).2.calls =
        (if jobKeyFunc newJob ∈ j.notifiedJobs then e.calls
          else e.calls ++ [⟨newJob, true⟩]) ∧
      (({ j with notificationLevel := NotificationLevelFailed }).handleJobUpdate e
          (.job oldJob) (.job newJob)).2.calls =
        (if jobKeyFunc newJob ∈ j.notifiedJobs then e.calls
          else e.calls ++ [⟨newJob, false⟩]) := by
  have hs : ∀ j' : JobInformer σ, j'.isJobSucceeded oldJob newJob = true := fun j' =>
    (isJobSucceeded_iff j' oldJob newJob).2 ⟨by omega, hnew⟩
  have hf : ∀ j' : JobInformer σ, j'.isJobFailed oldJob newJob = true := fun j' =>
    (isJobFailed_iff j' oldJob newJob).2 ⟨hfold, hfnew⟩
  constructor
  · rw [handleJobUpdate_calls]
    simp [hs]
  · rw [handleJobUpdate_calls]
    have hne : NotificationLevelFailed ≠ NotificationLevelAll := by decide
    simp [hs, hf, hne]

theorem handleJobUpdate_both_edges_witness :
    ((sampleJob 0 []).Status.Succeeded = 0 ∧ 0 < (sampleJob 1 [failedTrue]).Status.Succeeded ∧
        ¬ HasFailedCondition (sampleJob 0 []) ∧ HasFailedCondition (sampleJob 1 [failedTrue])) ∧
      (({ sampleInformer NotificationLevelAll with
            notificationLevel := NotificationLevelAll }).handleJobUpdate emptyEnv
          (.job (sampleJob 0 [])) (.job (sampleJob 1 [failedTrue]))).2.calls =
        (if jobKeyFunc (sampleJob 1 [failedTrue]) ∈
              (sampleInformer NotificationLevelAll).notifiedJobs then emptyEnv.calls
          else emptyEnv.calls ++ [⟨sampleJob 1 [failedTrue], true⟩]) ∧
      (({ sampleInformer NotificationLevelAll with
            notificationLevel := NotificationLevelFailed }).handleJobUpdate emptyEnv
          (.job (sampleJob 0 [])) (.job (sampleJob 1 [failedTrue]))).2.calls =
        (if jobKeyFunc (sampleJob 1 [failedTrue]) ∈
              (sampleInformer NotificationLevelAll).notifiedJobs then emptyEnv.calls
          else emptyEnv.calls ++ [⟨sampleJob 1 [failedTrue], false⟩]) :=
  ⟨⟨rfl, by decide, by simp [HasFailedCondition, sampleJob],
      ⟨failedTrue, by simp [sampleJob], rfl, rfl⟩⟩,
    handleJobUpdate_both_edges (sampleInformer NotificationLevelAll) emptyEnv
      (sampleJob 0 []) (sampleJob 1 [failedTrue]) rfl (by decide)
      (by simp [HasFailedCondition, sampleJob]) ⟨failedTrue, by simp [sampleJob], rfl, rfl⟩⟩

/-- C8: on a pair carrying an edge, for a key not yet in `notifiedJobs`, the
set after `handleJobUpdate` contains the key and is the same for every
notifier and notifier state, so whether `NotifyJobCompleted` returns nil or an
error; a subsequent `handleJobUpdate` with the identical pair, after any
further events, makes no notifier call. -/
theorem handleJobUpdate_delivery_failure_keeps_mark {σ : Type} (j : JobInformer σ) (e : Env σ)
    (n' : Notifier σ) (e' : Env σ) (oldJob newJob : Job) (events : List (Obj × Obj))
    (hedge : j.isJobSucceeded oldJob newJob = true ∨ j.isJobFailed oldJob newJob = true)
    (hk : jobKeyFunc newJob ∉ j.notifiedJobs) :
    jobKeyFunc newJob ∈ (j.handleJobUpdate e (.job oldJob) (.job newJob)).1.notifiedJobs ∧
      (({ j with notifier := n' }).handleJobUpdate e' (.job oldJob) (.job newJob)).1.notifiedJobs =
        (j.handleJobUpdate e (.job oldJob) (.job newJob)).1.notifiedJobs ∧
      ((((j.handleJobUpdate e (.job oldJob) (.job newJob)).1.run
            (j.handleJobUpdate e (.job oldJob) (.job newJob)).2 events).1).handleJobUpdate
          ((j.handleJobUpdate e (.job oldJob) (.job newJob)).1.run
            (j.handleJobUpdate e (.job oldJob) (.job newJob)).2 events).2
          (.job oldJob) (.job newJob)).2.calls =
        ((j.handleJobUpdate e (.job oldJob) (.job newJob)).1.run
          (j.handleJobUpdate e (.job oldJob) (.job newJob)).2 events).2.calls := by
  have hedge' : ({ j with notifier := n' } : JobInformer σ).isJobSucceeded oldJob newJob = true ∨
      ({ j with notifier := n' } : JobInformer σ).isJobFailed oldJob newJob = true := hedge
  have h1 : (j.handleJobUpdate e (.job oldJob) (.job newJob)).1.notifiedJobs =
      insert (jobKeyFunc newJob) j.notifiedJobs := by
    rw [handleJobUpdate_notifiedJobs]; simp [hk, hedge]
  have hmem : jobKeyFunc newJob ∈
      (j.handleJobUpdate e (.job oldJob) (.job newJob)).1.notifiedJobs := by
    rw [h1]; exact Finset.mem_insert_self _ _
  refine ⟨hmem, ?_, ?_⟩
  · rw [h1, handleJobUpdate_notifiedJobs]
    simp [hk, hedge']
  · rw [handleJobUpdate_marked _ _ oldJob newJob (run_notifiedJobs_mono events _ _ hmem)]

theorem handleJobUpdate_delivery_failure_keeps_mark_witness :
    (((sampleInformer NotificationLevelAll).isJobSucceeded (sampleJob 0 []) (sampleJob 1 [])
            = true ∨
          (sampleInformer NotificationLevelAll).isJobFailed (sampleJob 0 []) (sampleJob 1 [])
            = true) ∧
        jobKeyFunc (sampleJob 1 []) ∉ (sampleInformer NotificationLevelAll).notifiedJobs) ∧
      jobKeyFunc (sampleJob 1 []) ∈
          ((sampleInformer NotificationLevelAll).handleJobUpdate emptyEnv
            (.job (sampleJob 0 [])) (.job (sampleJob 1 []))).1.notifiedJobs ∧
      (({ sampleInformer NotificationLevelAll with notifier := errNotifier }).handleJobUpdate
            emptyEnv (.job (sampleJob 0 [])) (.job (sampleJob 1 []))).1.notifiedJobs =
          ((sampleInformer NotificationLevelAll).handleJobUpdate emptyEnv
            (.job (sampleJob 0 [])) (.job (sampleJob 1 []))).1.notifiedJobs ∧
      (((((sampleInformer NotificationLevelAll).handleJobUpdate emptyEnv
              (.job (sampleJob 0 [])) (.job (sampleJob 1 []))).1.run
            ((sampleInformer NotificationLevelAll).handleJobUpdate emptyEnv
              (.job (sampleJob 0 [])) (.job (sampleJob 1 []))).2 []).1).handleJobUpdate
          (((sampleInformer NotificationLevelAll).handleJobUpdate emptyEnv
              (.job (sampleJob 0 [])) (.job (sampleJob 1 []))).1.run
            ((sampleInformer NotificationLevelAll).handleJobUpdate emptyEnv
              (.job (sampleJob 0 [])) (.job (sampleJob 1 []))).2 []).2
          (.job (sampleJob 0 [])) (.job (sampleJob 1 []))).2.calls =
        (((sampleInformer NotificationLevelAll).handleJobUpdate emptyEnv
            (.job (sampleJob 0 [])) (.job (sampleJob 1 []))).1.run
          ((sampleInformer NotificationLevelAll).handleJobUpdate emptyEnv
            (.job (sampleJob 0 [])) (.job (sampleJob 1 []))).2 []).2.calls :=
  ⟨⟨Or.inl (by decide), Finset.not_mem_empty _⟩,
    handleJobUpdate_delivery_failure_keeps_mark (sampleInformer NotificationLevelAll) emptyEnv
      errNotifier emptyEnv (sampleJob 0 []) (sampleJob 1 []) [] (Or.inl (by decide))
      (Finset.not_mem_empty _)⟩

/-- C10: under level `failed`, for a key not yet in `notifiedJobs`, a pair
carrying only a success edge makes no notifier call but adds the key to
`notifiedJobs`; a later pair for the same namespace and name carrying a
failure edge, after any further events, then makes no notifier call either. -/
theorem handleJobUpdate_suppressed_success_consumes_slot {σ : Type} (j : JobInformer σ)
    (e : Env σ) (oldJob newJob oldJob' newJob' : Job) (events : List (Obj × Obj))
    (hl : j.notificationLevel = NotificationLevelFailed)
    (hk : jobKeyFunc newJob ∉ j.notifiedJobs)
    (hold : oldJob.Status.Succeeded = 0) (hnew : 0 < newJob.Status.Succeeded)
    (hnf : ¬ (¬ HasFailedCondition oldJob ∧ HasFailedCondition newJob))
    (hns : newJob'.Namespace = newJob.Namespace) (hname : newJob'.Name = newJob.Name)
    (hfold : ¬ HasFailedCondition oldJob') (hfnew : HasFailedCondition newJob') :
    (j.handleJobUpdate e (.job oldJob) (.job newJob)).2.calls = e.calls ∧
      jobKeyFunc newJob ∈ (j.handleJobUpdate e (.job oldJob) (.job newJob)).1.notifiedJobs ∧
      j.isJobFailed oldJob' newJob' = true ∧
      ((((j.handleJobUpdate e (.job oldJob) (.job newJob)).1.run
            (j.handleJobUpdate e (.job oldJob) (.job newJob)).2 events).1).handleJobUpdate
          ((j.handleJobUpdate e (.job oldJob) (.job newJob)).1.run
            (j.handleJobUpdate e (.job oldJob) (.job newJob)).2 events).2
          (.job oldJob') (.job newJob')).2.calls =
        ((j.handleJobUpdate e (.job oldJob) (.job newJob)).1.run
          (j.handleJobUpdate e (.job oldJob) (.job newJob)).2 events).2.calls := by
  have hs : j.isJobSucceeded oldJob newJob = true :=
    (isJobSucceeded_iff j oldJob newJob).2 ⟨by omega, hnew⟩
  have hf : j.isJobFailed oldJob newJob = false := by
    rw [← Bool.not_eq_true, isJobFailed_iff]; exact hnf
  have hne : NotificationLevelFailed ≠ NotificationLevelAll := by decide
  have hcalls : (j.handleJobUpdate e (.job oldJob) (.job newJob)).2.calls = e.calls := by
    rw [handleJobUpdate_calls]; simp [hk, hs, hf, hl, hne]
  have hmem : jobKeyFunc newJob ∈
      (j.handleJobUpdate e (.job oldJob) (.job newJob)).1.notifiedJobs := by
    rw [handleJobUpdate_notifiedJobs]; simp [hk, hs]
  have hkey : jobKeyFunc newJob' = jobKeyFunc newJob := by
    simp [jobKeyFunc, hns, hname]
  refine ⟨hcalls, hmem, (isJobFailed_iff j oldJob' newJob').2 ⟨hfold, hfnew⟩, ?_⟩
  rw [handleJobUpdate_marked _ _ oldJob' newJob'
    (run_notifiedJobs_mono events _ _ (hkey ▸ hmem))]

theorem handleJobUpdate_suppressed_success_consumes_slot_witness :
    ((sampleInformer NotificationLevelFailed).notificationLevel = NotificationLevelFailed ∧
        jobKeyFunc (sampleJob 1 []) ∉ (sampleInformer NotificationLevelFailed).notifiedJobs ∧
        (sampleJob 0 []).Status.Succeeded = 0 ∧ 0 < (sampleJob 1 []).Status.Succeeded ∧
        ¬ (¬ HasFailedCondition (sampleJob 0 []) ∧ HasFailedCondition (sampleJob 1 [])) ∧
        ¬ HasFailedCondition (sampleJob 1 []) ∧
        HasFailedCondition (sampleJob 1 [failedTrue])) ∧
      ((sampleInformer NotificationLevelFailed).handleJobUpdate emptyEnv
          (.job (sampleJob 0 [])) (.job (sampleJob 1 []))).2.calls = emptyEnv.calls ∧
      jobKeyFunc (sampleJob 1 []) ∈
        ((sampleInformer NotificationLevelFailed).handleJobUpdate emptyEnv
          (.job (sampleJob 0 [])) (.job (sampleJob 1 []))).1.notifiedJobs ∧
      (sampleInformer NotificationLevelFailed).isJobFailed (sampleJob 1 [])
          (sampleJob 1 [failedTrue]) = true ∧
      (((((sampleInformer NotificationLevelFailed).handleJobUpdate emptyEnv
              (.job (sampleJob 0 [])) (.job (sampleJob 1 []))).1.run
            ((sampleInformer NotificationLevelFailed).handleJobUpdate emptyEnv
              (.job (sampleJob 0 [])) (.job (sampleJob 1 []))).2 []).1).handleJobUpdate
          (((sampleInformer NotificationLevelFailed).handleJobUpdate emptyEnv
              (.job (sampleJob 0 [])) (.job (sampleJob 1 []))).1.run
            ((sampleInformer NotificationLevelFailed).handleJobUpdate emptyEnv
              (.job (sampleJob 0 [])) (.job (sampleJob 1 []))).2 []).2
          (.job (sampleJob 1 [])) (.job (sampleJob 1 [failedTrue]))).2.calls =
        (((sampleInformer NotificationLevelFailed).handleJobUpdate emptyEnv
            (.job (sampleJob 0 [])) (.job (sampleJob 1 []))).1.run
          ((sampleInformer NotificationLevelFailed).handleJobUpdate emptyEnv
            (.job (sampleJob 0 [])) (.job (sampleJob 1 []))).2 []).2.calls :=
  ⟨⟨rfl, Finset.not_mem_empty _, rfl, by decide, by simp [HasFailedCondition, sampleJob],
      by simp [HasFailedCondition, sampleJob], ⟨failedTrue, by simp [sampleJob], rfl, rfl⟩⟩,
    handleJobUpdate_suppressed_success_consumes_slot (sampleInformer NotificationLevelFailed)
      emptyEnv (sampleJob 0 []) (sampleJob 1 []) (sampleJob 1 []) (sampleJob 1 [failedTrue]) []
      rfl (Finset.not_mem_empty _) rfl (by decide) (by simp [HasFailedCondition, sampleJob])
      rfl rfl (by simp [HasFailedCondition, sampleJob])
      ⟨failedTrue, by simp [sampleJob], rfl, rfl⟩⟩

/-! ## The dedup key -/

/-- C9, as stated, fails: the jobs `a/b` + `c` and `a` + `b/c` differ in their
(Namespace, Name) pairs and have the same key `a/b/c`. -/
theorem jobKeyFunc_collision_counterexample :
    ((slashJobA.Namespace, slashJobA.Name) ≠ (slashJobB.Namespace, slashJobB.Name)) ∧
      jobKeyFunc slashJobA = jobKeyFunc slashJobB := by
  decide

/-- C9, amended: for two jobs whose namespaces contain no `/` (the name of a
Kubernetes namespace is a DNS label and never contains one) and whose
(Namespace, Name) pairs differ, `jobKeyFunc` returns different keys. -/
theorem jobKeyFunc_injective {job₁ job₂ : Job}
    (h₁ : '/' ∉ job₁.Namespace.data) (h₂ : '/' ∉ job₂.Namespace.data)
    (hne : (job₁.Namespace, job₁.Name) ≠ (job₂.Namespace, job₂.Name)) :
    jobKeyFunc job₁ ≠ jobKeyFunc job₂ := by
  intro hkey
  apply hne
  have hdata := congrArg String.data hkey
  simp only [jobKeyFunc, String.data_append] at hdata
  rw [List.append_assoc, List.append_assoc, List.singleton_append,
    List.singleton_append] at hdata
  obtain ⟨hns, hname⟩ := append_cons_inj '/' _ _ _ _ h₁ h₂ hdata
  rw [String.ext hns, String.ext hname]

theorem jobKeyFunc_injective_witness :
    ('/' ∉ (sampleJob 0 []).Namespace.data ∧ '/' ∉ slashJobB.Namespace.data ∧
        ((sampleJob 0 []).Namespace, (sampleJob 0 []).Name) ≠
          (slashJobB.Namespace, slashJobB.Name)) ∧
      jobKeyFunc (sampleJob 0 []) ≠ jobKeyFunc slashJobB :=
  ⟨⟨by decide, by decide, by decide⟩,
    jobKeyFunc_injective (by decide) (by decide) (by decide)⟩

/-! ## Sequences of handler steps -/

/-- C1: starting from a freshly constructed informer (empty `notifiedJobs`) and
an empty call trace, after any finite sequence of `handleJobUpdate` calls, for
every notification level and every notifier, at most one
`NotifyJobCompleted` call has been made for jobs with any given key. -/
theorem run_at_most_once_per_key {σ : Type} (notifier : Notifier σ) (namespace_ : String)
    (resyncPeriod : Int) (level : NotificationLevel) (s : σ) (events : List (Obj × Obj))
    (key : String) :
    callsForKey
      ((NewJobInformer notifier namespace_ resyncPeriod level).run ⟨s, [], []⟩ events).2.calls
      key ≤ 1 := by
  refine (DedupInv_run events _ _ ?_ key).1
  intro k
  simp [callsForKey]

end K8sJobNotify
